import Mathlib

/-!
Verification of the retrieval-augmented streaming helpdesk pipeline
(`server.py`, `helpdesk_faiss_chatbot.py`).

The development shallowly embeds the Python source:

* raw network bytes are `List Nat` (byte values 0..255);
* Python `str` is Lean `String` (one `Char` per code point, so Python
  `len`/slicing agree with `String.data` length/`List.take`);
* `bytes.decode("utf-8", errors="ignore")` is a UTF-8 decoder that skips
  ill-formed bytes;
* `json.loads` is an executable recursive-descent parser for the JSON
  fragment the backend protocol uses (objects, arrays, strings with the
  standard escapes, integer numerals, `true`/`false`/`null`); fractional
  and exponent numerals are outside the modelled fragment;
* Python exceptions are `Except` values; Python truthiness is `pyTruthy`.
-/

/-- Decoded JSON values, as produced by `json.loads`.  Numbers are
restricted to integers (the backend frames in scope carry only strings
and booleans besides integers). -/
inductive Json where
  | null : Json
  | bool (b : Bool) : Json
  | num (n : Int) : Json
  | str (s : String) : Json
  | arr (xs : List Json) : Json
  | obj (kvs : List (String × Json)) : Json

/-- Python truthiness (`if x:`) of a decoded JSON value:
`None`, `False`, `0`, `""`, `[]`, `{}` are falsy, everything else truthy. -/
def pyTruthy : Json → Bool
  | .null => false
  | .bool b => b
  | .num n => n != 0
  | .str s => s != ""
  | .arr xs => !xs.isEmpty
  | .obj kvs => !kvs.isEmpty

/-- Python `dict.get`: lookup in a decoded JSON object.  Python dicts keep the
last binding of a duplicated key, so the rightmost match wins. -/
def dictGet (kvs : List (String × Json)) (k : String) : Option Json :=
  match kvs with
  | [] => none
  | (k', v) :: rest =>
    match dictGet rest k with
    | some v' => some v'
    | none => if k' == k then some v else none

/-- The whitespace characters skipped by `json.loads` between tokens. -/
def isJsonWs (c : Char) : Bool :=
  c == ' ' || c == '\t' || c == '\n' || c == '\r'

def skipWs (l : List Char) : List Char :=
  l.dropWhile isJsonWs

def hexDigit? (c : Char) : Option Nat :=
  if '0' ≤ c ∧ c ≤ '9' then some (c.toNat - '0'.toNat)
  else if 'a' ≤ c ∧ c ≤ 'f' then some (c.toNat - 'a'.toNat + 10)
  else if 'A' ≤ c ∧ c ≤ 'F' then some (c.toNat - 'A'.toNat + 10)
  else none

/-- One simple (non-`\u`) escape of a JSON string literal. -/
def escChar? (c : Char) : Option Char :=
  match c with
  | '"' => some '"'
  | '\\' => some '\\'
  | '/' => some '/'
  | 'b' => some '\x08'
  | 'f' => some '\x0c'
  | 'n' => some '\n'
  | 'r' => some '\r'
  | 't' => some '\t'
  | _ => none

def hex4? (h1 h2 h3 h4 : Char) : Option Nat := do
  let a ← hexDigit? h1
  let b ← hexDigit? h2
  let c ← hexDigit? h3
  let d ← hexDigit? h4
  pure (((a * 16 + b) * 16 + c) * 16 + d)

/-- Body of a JSON string literal, after the opening quote: returns the
decoded characters and the input past the closing quote.  Unescaped
control characters are rejected (strict `json.loads`); `\uXXXX` escapes
decode a scalar value, with high/low surrogate pairs combined (a lone
surrogate is outside the modelled fragment and rejected). -/
def parseStringBody : List Char → Option (List Char × List Char)
  | [] => none
  | '"' :: rest => some ([], rest)
  | '\\' :: 'u' :: h1 :: h2 :: h3 :: h4 :: rest =>
    match hex4? h1 h2 h3 h4 with
    | none => none
    | some n =>
      if 0xD800 ≤ n ∧ n ≤ 0xDBFF then
        match rest with
        | '\\' :: 'u' :: g1 :: g2 :: g3 :: g4 :: rest2 =>
          match hex4? g1 g2 g3 g4 with
          | none => none
          | some m =>
            if 0xDC00 ≤ m ∧ m ≤ 0xDFFF then
              match parseStringBody rest2 with
              | none => none
              | some (cs, r) =>
                some (Char.ofNat (0x10000 + (n - 0xD800) * 0x400 + (m - 0xDC00)) :: cs, r)
            else none
        | _ => none
      else if 0xDC00 ≤ n ∧ n ≤ 0xDFFF then none
      else
        match parseStringBody rest with
        | none => none
        | some (cs, r) => some (Char.ofNat n :: cs, r)
  | '\\' :: c :: rest =>
    match escChar? c with
    | none => none
    | some ch =>
      match parseStringBody rest with
      | none => none
      | some (cs, r) => some (ch :: cs, r)
  | c :: rest =>
    if c.toNat < 0x20 then none
    else
      match parseStringBody rest with
      | none => none
      | some (cs, r) => some (c :: cs, r)

def isDigitChar (c : Char) : Bool := '0' ≤ c && c ≤ '9'

def digitsVal (ds : List Char) : Nat :=
  ds.foldl (fun acc c => acc * 10 + (c.toNat - '0'.toNat)) 0

/-- An unsigned JSON integer numeral: one or more digits, no redundant
leading zero. -/
def parseNat? (l : List Char) : Option (Nat × List Char) :=
  let ds := l.takeWhile isDigitChar
  let rest := l.dropWhile isDigitChar
  match ds with
  | [] => none
  | ['0'] => some (0, rest)
  | '0' :: _ :: _ => none
  | _ => some (digitsVal ds, rest)

def parseIntTok? (l : List Char) : Option (Int × List Char) :=
  match l with
  | '-' :: rest =>
    match parseNat? rest with
    | none => none
    | some (n, r) => some (-(n : Int), r)
  | _ =>
    match parseNat? l with
    | none => none
    | some (n, r) => some ((n : Int), r)

mutual

/-- Recursive-descent JSON value parser (fuel-indexed; `json_loads`
supplies fuel larger than the input so exhaustion never occurs before
the input does). -/
def parseVal : Nat → List Char → Option (Json × List Char)
  | 0, _ => none
  | fuel + 1, l =>
    match skipWs l with
    | '{' :: rest =>
      (match skipWs rest with
       | '}' :: rest2 => some (.obj [], rest2)
       | _ => parseObjRest fuel [] rest)
    | '[' :: rest =>
      (match skipWs rest with
       | ']' :: rest2 => some (.arr [], rest2)
       | _ => parseArrRest fuel [] rest)
    | '"' :: rest =>
      (match parseStringBody rest with
       | none => none
       | some (cs, r) => some (.str (String.mk cs), r))
    | 't' :: 'r' :: 'u' :: 'e' :: rest => some (.bool true, rest)
    | 'f' :: 'a' :: 'l' :: 's' :: 'e' :: rest => some (.bool false, rest)
    | 'n' :: 'u' :: 'l' :: 'l' :: rest => some (.null, rest)
    | l' =>
      (match parseIntTok? l' with
       | none => none
       | some (n, r) => some (.num n, r))

/-- Members of a JSON object after `{` (accumulator holds the members
already parsed, in order). -/
def parseObjRest : Nat → List (String × Json) → List Char → Option (Json × List Char)
  | 0, _, _ => none
  | fuel + 1, acc, l =>
    match skipWs l with
    | '"' :: rest =>
      (match parseStringBody rest with
       | none => none
       | some (kcs, r) =>
         match skipWs r with
         | ':' :: r2 =>
           (match parseVal fuel r2 with
            | none => none
            | some (v, r3) =>
              let acc2 := acc ++ [(String.mk kcs, v)]
              match skipWs r3 with
              | ',' :: r4 => parseObjRest fuel acc2 r4
              | '}' :: r4 => some (.obj acc2, r4)
              | _ => none)
         | _ => none)
    | _ => none

/-- Elements of a JSON array after `[`. -/
def parseArrRest : Nat → List Json → List Char → Option (Json × List Char)
  | 0, _, _ => none
  | fuel + 1, acc, l =>
    match parseVal fuel l with
    | none => none
    | some (v, r) =>
      let acc2 := acc ++ [v]
      match skipWs r with
      | ',' :: r2 => parseArrRest fuel acc2 r2
      | ']' :: r2 => some (.arr acc2, r2)
      | _ => none

end

/-- Model of `json.loads`: parse a complete JSON document, allowing surrounding
whitespace and rejecting trailing garbage.  `none` models
`json.JSONDecodeError`. -/
def json_loads (s : String) : Option Json :=
  match parseVal (s.data.length + 1) s.data with
  | none => none
  | some (j, rest) => if skipWs rest = [] then some j else none

example : json_loads "\x7b\"response\":\"He\",\"done\":false\x7d" =
    some (.obj [("response", .str "He"), ("done", .bool false)]) := rfl
example : json_loads "not-json" = none := rfl
example : json_loads "\x7b\"done\":true\x7d" = some (.obj [("done", .bool true)]) := rfl
example : json_loads " [1, -2, \"a\\n\"] " =
    some (.arr [.num 1, .num (-2), .str "a\n"]) := rfl
example : json_loads "5" = some (.num 5) := rfl
example : json_loads "\x7b\"a\":1,\x7d" = none := rfl

/-!
## Bytes and Python string primitives
-/

/-- Is `b` a UTF-8 continuation byte (`0x80..0xBF`)? -/
def isContByte (b : Nat) : Bool := 0x80 ≤ b && b ≤ 0xBF

/-- Worker for `decodeUtf8Ignore` (fuel-indexed: every step consumes at
least one byte, so fuel above the byte count is never exhausted). -/
def decodeUtf8Go : Nat → List Nat → List Char
  | 0, _ => []
  | _ + 1, [] => []
  | fuel + 1, b :: rest =>
    if b < 0x80 then Char.ofNat b :: decodeUtf8Go fuel rest
    else if 0xC2 ≤ b && b ≤ 0xDF then
      match rest with
      | [] => []
      | c1 :: rest2 =>
        if isContByte c1 then
          Char.ofNat ((b - 0xC0) * 0x40 + (c1 - 0x80)) :: decodeUtf8Go fuel rest2
        else decodeUtf8Go fuel rest
    else if 0xE0 ≤ b && b ≤ 0xEF then
      match rest with
      | c1 :: c2 :: rest2 =>
        if isContByte c1 && isContByte c2 &&
            (if b == 0xE0 then 0xA0 ≤ c1 else if b == 0xED then c1 ≤ 0x9F else true) then
          Char.ofNat (((b - 0xE0) * 0x40 + (c1 - 0x80)) * 0x40 + (c2 - 0x80)) ::
            decodeUtf8Go fuel rest2
        else decodeUtf8Go fuel rest
      | _ => []
    else if 0xF0 ≤ b && b ≤ 0xF4 then
      match rest with
      | c1 :: c2 :: c3 :: rest2 =>
        if isContByte c1 && isContByte c2 && isContByte c3 &&
            (if b == 0xF0 then 0x90 ≤ c1 else if b == 0xF4 then c1 ≤ 0x8F else true) then
          Char.ofNat ((((b - 0xF0) * 0x40 + (c1 - 0x80)) * 0x40 + (c2 - 0x80)) * 0x40
              + (c3 - 0x80)) :: decodeUtf8Go fuel rest2
        else decodeUtf8Go fuel rest
      | _ => []
    else decodeUtf8Go fuel rest

/-- Model of `bytes.decode("utf-8", errors="ignore")`: decode a byte list,
skipping ill-formed bytes instead of raising.  Surrogate-range and
out-of-range encodings are ill-formed and skipped; a sequence truncated
by the end of input is dropped. -/
def decodeUtf8Ignore (bytes : List Nat) : List Char :=
  decodeUtf8Go (bytes.length + 1) bytes

/-- The ASCII characters stripped by Python `str.strip()` (the Unicode
whitespace code points above `\x85` are outside the modelled fragment). -/
def isPySpace (c : Char) : Bool :=
  c == ' ' || c == '\t' || c == '\n' || c == '\r' || c == '\x0b' || c == '\x0c' ||
  c == '\x1c' || c == '\x1d' || c == '\x1e' || c == '\x1f' || c == '\x85'

/-- Python `str.strip()`: remove whitespace from both ends. -/
def pyStrip (l : List Char) : List Char :=
  ((l.dropWhile isPySpace).reverse.dropWhile isPySpace).reverse

/-- The bytes of an ASCII-only Python `b"..."` literal / encoded string. -/
def asciiBytes (s : String) : List Nat := s.data.map Char.toNat

example : String.mk (decodeUtf8Ignore (asciiBytes " not-json \r")) = " not-json \r" := rfl
example : String.mk (pyStrip (" not-json \r").data) = "not-json" := rfl

/-!
## The Generation Relay (`server.py`, `ollama_stream`)

One run of the async generator is modelled as a function of the
backend's observable response: the handshake `status_code`, the error
`body` (read only when the status is an error), and the chunk sequence
delivered by `resp.aiter_bytes()`.  The generator's yields are collected
into a list of tokens plus a terminal outcome.
-/

/-- The decoded, stripped line: `buffer[:nl].decode("utf-8", errors="ignore").strip()`. -/
def lineText (lineBytes : List Nat) : String :=
  String.mk (pyStrip (decodeUtf8Ignore lineBytes))

/-- What the loop body does with one decoded, stripped line. -/
inductive LineAct where
  | skip : LineAct
  | emit (t : Json) : LineAct
  | stop : LineAct
  | raised (msg : String) : LineAct

/-- The body of the NDJSON line loop in `ollama_stream`:
`if not line: continue`; `json.loads` failure yields the raw line;
a parsed frame yields its truthy `response` unless `done` is truthy,
in which case the generator returns.  `json.loads` can also produce a
non-dict value, on which `obj.get` raises `AttributeError`. -/
def processLine (line : String) : LineAct :=
  if line = "" then .skip
  else
    match json_loads line with
    | none => .emit (.str line)
    | some obj =>
      match obj with
      | .obj kvs =>
        if !pyTruthy ((dictGet kvs "done").getD .null) then
          let piece := (dictGet kvs "response").getD (.str "")
          if pyTruthy piece then .emit piece else .skip
        else .stop
      | _ => .raised "AttributeError: object has no attribute get"

/-- How one pass over the buffer ended. -/
inductive StepEnd where
  | more : StepEnd
  | stopped : StepEnd
  | raised (msg : String) : StepEnd

/-- The inner `while True` loop: find a newline, split off the line
before it, process it, continue on the remaining buffer.  Each
iteration consumes at least the newline byte, so fuel
`buffer.length + 1` can never be exhausted before the buffer is;
on `none` (no newline, `find` returns `-1`) the partial frame is kept. -/
def drainBuffer : Nat → List Nat → List Json × List Nat × StepEnd
  | 0, buffer => ([], buffer, .more)
  | fuel + 1, buffer =>
    match buffer.findIdx? (fun b => b == 10) with
    | none => ([], buffer, .more)
    | some nl =>
      let line := lineText (buffer.take nl)
      let rest := buffer.drop (nl + 1)
      match processLine line with
      | .skip => drainBuffer fuel rest
      | .emit t =>
        (match drainBuffer fuel rest with
         | (ts, buf, e) => (t :: ts, buf, e))
      | .stop => ([], [], .stopped)
      | .raised m => ([], [], .raised m)

/-- How a whole generator run ended: the byte stream was exhausted
without a terminal frame, a `done`-truthy frame returned cleanly, or a
Python exception escaped mid-stream. -/
inductive Outcome where
  | exhausted : Outcome
  | finished : Outcome
  | errored (msg : String) : Outcome

/-- The outer `async for chunk in resp.aiter_bytes()` loop: skip empty
chunks, append to the buffer, drain complete lines.  Returns all yielded
tokens in order plus the terminal outcome. -/
def runChunks : List (List Nat) → List Nat → List Json × Outcome
  | [], _ => ([], .exhausted)
  | chunk :: chunks, buffer =>
    if chunk.isEmpty then runChunks chunks buffer
    else
      let buf := buffer ++ chunk
      match drainBuffer (buf.length + 1) buf with
      | (ts, buf2, .more) =>
        (match runChunks chunks buf2 with
         | (ts2, o) => (ts ++ ts2, o))
      | (ts, _, .stopped) => (ts, .finished)
      | (ts, _, .raised m) => (ts, .errored m)

/-- Model of `fastapi.HTTPException`, as raised by `ollama_stream`. -/
structure HTTPException where
  status_code : Nat
  detail : String

/-- One complete run of the `ollama_stream` generator, as observed by a
consumer: either the handshake check raised before any yield, or the
byte-stream loop ran and produced tokens plus an outcome. -/
inductive RelayRun where
  | handshakeError (e : HTTPException) : RelayRun
  | stream (tokens : List Json) (outcome : Outcome) : RelayRun

/-- The relay `ollama_stream` (`server.py` lines 108-158), as a function of the
backend response: on `status_code >= 400` it raises
`HTTPException(500, f"Ollama API error: {status} - {body}")` before
entering the byte-stream loop; otherwise it runs the loop on an empty
buffer. -/
def ollama_stream (status_code : Nat) (body : List Nat) (chunks : List (List Nat)) :
    RelayRun :=
  if 400 ≤ status_code then
    .handshakeError
      ⟨500, "Ollama API error: " ++ toString status_code ++ " - " ++
        String.mk (decodeUtf8Ignore body)⟩
  else
    match runChunks chunks [] with
    | (ts, o) => .stream ts o

/-- The tokens a consumer receives from one relay run. -/
def relayTokens : RelayRun → List Json
  | .handshakeError _ => []
  | .stream ts _ => ts

example :
    ollama_stream 200 []
      [asciiBytes "\x7b\"response\":\"He\",\"done\":false\x7d\n\x7b\"respon",
       asciiBytes "se\":\"llo\",\"done\":false\x7d\n\x7b\"done\":true\x7d\n"] =
    .stream [.str "He", .str "llo"] .finished := rfl

-- Duplicate keys: the rightmost binding wins, as in a Python dict.
example : processLine "\x7b\"done\":false,\"done\":true\x7d" = .stop := rfl
-- A falsy `done` (the integer 0) is not terminal; an absent or empty
-- `response` yields nothing.
example : processLine "\x7b\"done\":0\x7d" = .skip := rfl
example : processLine "\x7b\"response\":\"\",\"done\":false\x7d" = .skip := rfl
-- A truthy non-bool `done` (a non-empty string) is terminal, per
-- `if not obj.get("done")`.
example : processLine "\x7b\"done\":\"false\"\x7d" = .stop := rfl
-- A whitespace-only line strips to empty and is skipped; CRLF frames
-- parse after the stripped carriage return.
example :
    ollama_stream 200 [] [asciiBytes "   \n\x7b\"response\":\"ok\",\"done\":false\x7d\r\n"] =
    .stream [.str "ok"] .exhausted := rfl
-- A JSON line that is not an object makes `obj.get` raise.
example :
    ollama_stream 200 [] [asciiBytes "\x7b\"response\":\"a\",\"done\":false\x7d\n5\n"] =
    .stream [.str "a"] (.errored "AttributeError: object has no attribute get") := rfl

/-!
## Retrieval (`helpdesk_faiss_chatbot.py`, `server.py: retrieve_history`)

The Embedding Gateway (`model.encode`) and the Similarity Index
(`index.search`) are external collaborators: they are passed in as
functions that either return a value or raise (`Except`).  The corpus
dataframe is the list of its `actionbody` cells, in row order.
-/

/-- The constant `TOP_K` (`helpdesk_faiss_chatbot.py` line 9). -/
def TOP_K : Nat := 3

/-- The constant `LLM_CONTEXT_LIMIT` (`helpdesk_faiss_chatbot.py` line 10). -/
def LLM_CONTEXT_LIMIT : Nat := 2000

/-- A raised Python exception, carrying its message. -/
structure PyErr where
  msg : String

/-- Python integer indexing into a sequence of length `n`: non-negative
indices below `n` are themselves, negative indices from `-n` count from
the end, everything else is out of range. -/
def pyIndex (n : Nat) (i : Int) : Option Nat :=
  if 0 ≤ i ∧ i < (n : Int) then some i.toNat
  else if -(n : Int) ≤ i ∧ i < 0 then some (n - (-i).toNat)
  else none

/-- The row lookup `str(df.iloc[best_idx]["actionbody"])`: positional row lookup, an
`IndexError` when the identifier is out of range. -/
def ilocActionbody (corpus : List String) (i : Int) : Except PyErr String :=
  match pyIndex corpus.length i with
  | some j => .ok (corpus.getD j "")
  | none => .error ⟨"IndexError: single positional indexer is out-of-bounds"⟩

/-- The selection `indices[0][0]` on the index-search result matrix (an `IndexError`
when a dimension is empty). -/
def matFirst (mat : List (List Int)) : Except PyErr Int :=
  match mat with
  | (i :: _) :: _ => .ok i
  | _ => .error ⟨"IndexError: index 0 is out of bounds"⟩

/-- The body of the `try` block in `retrieve_history` (`server.py`
lines 73-76): embed the query, search the index with `TOP_K`, take the
identifier `indices[0][0]`, look its row up in the corpus. -/
def tryRetrieveHistory {α : Type} (encode : String → Except PyErr α)
    (search : α → Nat → Except PyErr (List (List Int)))
    (corpus : List String) (query : String) : Except PyErr String := do
  let q_emb ← encode query
  let indices ← search q_emb TOP_K
  let best_idx ← matFirst indices
  ilocActionbody corpus best_idx

/-- Python `s[:n]` on a string. -/
def pySliceTo (s : String) (n : Nat) : String :=
  String.mk (s.data.take n)

/-- The retriever `retrieve_history` (`server.py` lines 70-82): any exception in the
`try` block degrades to the empty history; a non-empty history is then
clipped to `LLM_CONTEXT_LIMIT` characters (both `history` and
`LLM_CONTEXT_LIMIT` tested for truthiness, as in
`if history and LLM_CONTEXT_LIMIT`). -/
def retrieve_history {α : Type} (encode : String → Except PyErr α)
    (search : α → Nat → Except PyErr (List (List Int)))
    (corpus : List String) (query : String) : String :=
  let history :=
    match tryRetrieveHistory encode search corpus query with
    | .ok h => h
    | .error _ => ""
  if history != "" && LLM_CONTEXT_LIMIT != 0 then
    pySliceTo history LLM_CONTEXT_LIMIT
  else history

/-- The retrieval-and-truncation prefix of `search_helpdesk`
(`helpdesk_faiss_chatbot.py` lines 43-51): same lookup as
`retrieve_history` but with no exception handler, and truncation only
when the text is strictly longer than the limit. -/
def search_helpdesk_text {α : Type} (encode : String → Except PyErr α)
    (search : α → Nat → Except PyErr (List (List Int)))
    (corpus : List String) (query : String) : Except PyErr String := do
  let query_embedding ← encode query
  let indices ← search query_embedding TOP_K
  let best_idx ← matFirst indices
  let best_text ← ilocActionbody corpus best_idx
  pure (if best_text.length > LLM_CONTEXT_LIMIT then
    pySliceTo best_text LLM_CONTEXT_LIMIT
  else best_text)

/-!
## Prompt Builder (`server.py`, `build_prompt`)
-/

/-- The prompt builder `build_prompt` (`server.py` lines 85-96): the f-string template,
verbatim. -/
def build_prompt (history : String) (user_msg : String) : String :=
  "You are an expert IT helpdesk agent.\n\nThe following is a historical helpdesk ticket conversation:\n---\n"
  ++ history
  ++ "\n---\n\nA user now asks: \"" ++ user_msg
  ++ "\"\n\nBased on the above, summarize the issue and resolution (if applicable), then write a helpful and friendly support reply for the user. If the history is not directly relevant, still provide a best-effort, step-by-step IT troubleshooting answer.\n"

/-!
## Response Adapters (`server.py`, `post_query` and `chat_sse`)
-/

/-- Python `"".join(out)`: concatenate the collected tokens; a non-`str`
element raises `TypeError`. -/
def joinTokens : List Json → Except PyErr String
  | [] => .ok ""
  | .str s :: ts =>
    (match joinTokens ts with
     | .ok r => .ok (s ++ r)
     | .error e => .error e)
  | _ :: _ => .error ⟨"TypeError: sequence item: expected str instance"⟩

/-- What the `/query` handler returns: a JSON reply, or an
`HTTPException` with a status code and detail. -/
inductive QueryResult where
  | reply (s : String) : QueryResult
  | httpError (status_code : Nat) (detail : String) : QueryResult

/-- The generation stage of the `/query` handler (`server.py` lines
188-199): drain the relay collecting tokens, join them; an
`HTTPException` (the handshake failure) is re-raised as is, any other
exception — mid-stream or from the join — becomes
`HTTPException(500, f"LLM error: {e}")`. -/
def post_query_generate (relay : RelayRun) : QueryResult :=
  match relay with
  | .handshakeError e => .httpError e.status_code e.detail
  | .stream toks outcome =>
    match outcome with
    | .errored msg => .httpError 500 ("LLM error: " ++ msg)
    | _ =>
      match joinTokens toks with
      | .ok reply => .reply reply
      | .error e => .httpError 500 ("LLM error: " ++ e.msg)

/-- The `/query` handler (`server.py` lines 173-199): validate the
message, retrieve history, build the prompt, and run the generation
stage on the relay's run for that prompt (`backend` abstracts the
network side of `ollama_stream` as a function of the prompt). -/
def post_query {α : Type} (encode : String → Except PyErr α)
    (search : α → Nat → Except PyErr (List (List Int)))
    (corpus : List String) (backend : String → RelayRun)
    (message : String) : QueryResult :=
  let user_msg := String.mk (pyStrip message.data)
  if user_msg = "" then .httpError 400 "Missing 'message'"
  else
    let history := retrieve_history encode search corpus user_msg
    let prompt := build_prompt history user_msg
    post_query_generate (backend prompt)

mutual

/-- Python `repr` of a decoded JSON value (string escaping inside
`repr` is not modelled — container tokens are exercised by no claim). -/
def pyReprJson : Json → String
  | .null => "None"
  | .bool true => "True"
  | .bool false => "False"
  | .num n => toString n
  | .str s => "'" ++ s ++ "'"
  | .arr xs => "[" ++ pyReprElems xs ++ "]"
  | .obj kvs => "\x7b" ++ pyReprMembers kvs ++ "\x7d"

def pyReprElems : List Json → String
  | [] => ""
  | [x] => pyReprJson x
  | x :: xs => pyReprJson x ++ ", " ++ pyReprElems xs

def pyReprMembers : List (String × Json) → String
  | [] => ""
  | [(k, v)] => "'" ++ k ++ "': " ++ pyReprJson v
  | (k, v) :: kvs => "'" ++ k ++ "': " ++ pyReprJson v ++ ", " ++ pyReprMembers kvs

end

/-- Python `str()` of a yielded token, as interpolated by
`f"data: {token}"`. -/
def pyStr (t : Json) : String :=
  match t with
  | .str s => s
  | t => pyReprJson t

/-- The `event_stream` generator of the `/chat-sse` handler
(`server.py` lines 217-227): one `data:` unit per token in arrival
order, then one `[END]` unit on clean completion; an `HTTPException`
turns into a `[Backend error]` unit carrying its detail, any other
exception into a `[Backend error]` unit carrying its message. -/
def chat_sse_units (relay : RelayRun) : List String :=
  match relay with
  | .handshakeError e => ["data: [Backend error] " ++ e.detail ++ "\n\n"]
  | .stream toks outcome =>
    let tokenUnits := toks.map (fun t => "data: " ++ pyStr t ++ "\n\n")
    match outcome with
    | .errored msg => tokenUnits ++ ["data: [Backend error] " ++ msg ++ "\n\n"]
    | _ => tokenUnits ++ ["data: [END]\n\n"]

/-- The `/chat-sse` handler (`server.py` lines 201-236): validate the
query, retrieve history, build the prompt, and stream the event units
for the relay's run on that prompt. -/
def chat_sse {α : Type} (encode : String → Except PyErr α)
    (search : α → Nat → Except PyErr (List (List Int)))
    (corpus : List String) (backend : String → RelayRun)
    (q : String) : List String :=
  let user_msg := String.mk (pyStrip q.data)
  if user_msg = "" then ["data: [error] missing query\n\n"]
  else
    let history := retrieve_history encode search corpus user_msg
    let prompt := build_prompt history user_msg
    chat_sse_units (backend prompt)

example :
    chat_sse_units (ollama_stream 200 []
      [asciiBytes "\x7b\"response\":\"Hi\",\"done\":false\x7d\n\x7b\"response\":\"!\",\"done\":false\x7d\n\x7b\"done\":true\x7d\n"]) =
    ["data: Hi\n\n", "data: !\n\n", "data: [END]\n\n"] := rfl
/-!
## Helper lemmas
-/

/-- Once a run of the chunk loop has ended in `.finished` (a
`done`-truthy frame returned from the generator), feeding further
chunks changes nothing: they are never consumed. -/
theorem runChunks_finished_append (chunks : List (List Nat)) :
    ∀ (buffer : List Nat) (more : List (List Nat)) (ts : List Json),
      runChunks chunks buffer = (ts, .finished) →
      runChunks (chunks ++ more) buffer = (ts, .finished) := by
  induction chunks with
  | nil =>
    intro buffer more ts h
    simp [runChunks] at h
  | cons c cs ih =>
    intro buffer more ts h
    rw [List.cons_append]
    by_cases hc : c.isEmpty
    · rw [runChunks] at h ⊢
      rw [if_pos hc] at h ⊢
      exact ih buffer more ts h
    · rw [runChunks] at h ⊢
      rw [if_neg hc] at h ⊢
      dsimp only at h ⊢
      rcases hd : drainBuffer ((buffer ++ c).length + 1) (buffer ++ c) with ⟨ts1, buf2, e⟩
      rw [hd] at h
      cases e with
      | more =>
        dsimp only at h ⊢
        rcases hr : runChunks cs buf2 with ⟨ts2, o⟩
        rw [hr] at h
        injection h with h1 h2
        subst h1
        subst h2
        rw [ih buf2 more ts2 (by rw [hr])]
      | stopped =>
        dsimp only at h ⊢
        exact h
      | raised m =>
        dsimp only at h ⊢
        injection h with h1 h2
        exact absurd h2 (by simp)

/-!
## Claims
-/

/-- C1: a JSON frame split across network reads is reassembled from the
byte buffer before parsing: feeding
`b'{"response":"He","done":false}\n{"respon'` and then
`b'se":"llo","done":false}\n{"done":true}\n'` as two separate reads
yields exactly the tokens `["He", "llo"]` and the sequence terminates. -/
theorem claim_C1_split_frame_reassembled :
    ollama_stream 200 []
      [asciiBytes "\x7b\"response\":\"He\",\"done\":false\x7d\n\x7b\"respon",
       asciiBytes "se\":\"llo\",\"done\":false\x7d\n\x7b\"done\":true\x7d\n"] =
    .stream [.str "He", .str "llo"] .finished := rfl

/-- C2: once a frame parses as JSON with `done` truthy, the token
sequence ends immediately and no further token is emitted, even if more
complete frames remain buffered or more bytes arrive later in the same
response body. -/
theorem claim_C2_done_is_terminal (status : Nat) (body : List Nat)
    (chunks more : List (List Nat)) (ts : List Json)
    (h : ollama_stream status body chunks = .stream ts .finished) :
    ollama_stream status body (chunks ++ more) = .stream ts .finished := by
  unfold ollama_stream at h ⊢
  by_cases hs : 400 ≤ status
  · rw [if_pos hs] at h
    exact absurd h (by simp)
  · rw [if_neg hs] at h ⊢
    rcases hr : runChunks chunks [] with ⟨ts0, o⟩
    rw [hr] at h
    dsimp only at h
    injection h with h1 h2
    subst h1
    subst h2
    rw [runChunks_finished_append chunks [] more ts0 (by rw [hr])]

/-- Witness for C2: the `done:true` frame arrives with a further
complete frame already in the buffer behind it, and one more chunk
arrives afterwards; only the pre-`done` token is emitted either way. -/
theorem claim_C2_done_is_terminal_witness :
    ollama_stream 200 []
      [asciiBytes "\x7b\"response\":\"A\",\"done\":false\x7d\n\x7b\"done\":true\x7d\n\x7b\"response\":\"B\",\"done\":false\x7d\n"] =
      .stream [.str "A"] .finished
    ∧ ollama_stream 200 []
        ([asciiBytes "\x7b\"response\":\"A\",\"done\":false\x7d\n\x7b\"done\":true\x7d\n\x7b\"response\":\"B\",\"done\":false\x7d\n"]
          ++ [asciiBytes "\x7b\"response\":\"C\",\"done\":false\x7d\n"]) =
      .stream [.str "A"] .finished :=
  ⟨rfl, claim_C2_done_is_terminal 200 [] _ _ [Json.str "A"] rfl⟩

/-- C3: a newline-terminated line that fails to parse as JSON is not
dropped and does not abort the stream: the line (as decoded and
stripped, which is the text handed to `json.loads`) is yielded verbatim
as a token, and the sequence continues afterwards. -/
theorem claim_C3_malformed_line_forwarded :
    (∀ lineBytes : List Nat,
        lineText lineBytes ≠ "" →
        json_loads (lineText lineBytes) = none →
        processLine (lineText lineBytes) = .emit (.str (lineText lineBytes)))
    ∧ ollama_stream 200 [] [asciiBytes "not-json\n\x7b\"response\":\"ok\",\"done\":false\x7d\n"] =
        .stream [.str "not-json", .str "ok"] .exhausted := by
  constructor
  · intro lb h1 h2
    unfold processLine
    rw [if_neg h1, h2]
  · rfl

/-- Witness for C3 at the line `b'not-json\n'`. -/
theorem claim_C3_malformed_line_forwarded_witness :
    processLine (lineText (asciiBytes "not-json")) =
      .emit (.str (lineText (asciiBytes "not-json"))) :=
  claim_C3_malformed_line_forwarded.1 (asciiBytes "not-json") (by decide) rfl

/-- C4: a non-success handshake status makes the relay raise
`HTTPException(500, "Ollama API error: <status> - <body>")` before any
token is emitted, and both adapters surface it as a backend error with
no token. -/
theorem claim_C4_handshake_failure (status : Nat) (body : List Nat)
    (chunks : List (List Nat)) (h : 400 ≤ status) :
    ollama_stream status body chunks =
      .handshakeError
        ⟨500, "Ollama API error: " ++ toString status ++ " - " ++
          String.mk (decodeUtf8Ignore body)⟩
    ∧ relayTokens (ollama_stream status body chunks) = []
    ∧ post_query_generate (ollama_stream status body chunks) =
        .httpError 500
          ("Ollama API error: " ++ toString status ++ " - " ++
            String.mk (decodeUtf8Ignore body))
    ∧ chat_sse_units (ollama_stream status body chunks) =
        ["data: [Backend error] " ++
          ("Ollama API error: " ++ toString status ++ " - " ++
            String.mk (decodeUtf8Ignore body)) ++ "\n\n"] := by
  unfold ollama_stream
  rw [if_pos h]
  exact ⟨rfl, rfl, rfl, rfl⟩

/-- Witness for C4: the backend answers 503 with an error body; the
frames that would have followed are never relayed. -/
theorem claim_C4_handshake_failure_witness :
    ollama_stream 503 (asciiBytes "model overloaded")
      [asciiBytes "\x7b\"response\":\"X\",\"done\":false\x7d\n"] =
      .handshakeError
        ⟨500, "Ollama API error: " ++ toString 503 ++ " - " ++
          String.mk (decodeUtf8Ignore (asciiBytes "model overloaded"))⟩
    ∧ relayTokens (ollama_stream 503 (asciiBytes "model overloaded")
        [asciiBytes "\x7b\"response\":\"X\",\"done\":false\x7d\n"]) = []
    ∧ post_query_generate (ollama_stream 503 (asciiBytes "model overloaded")
        [asciiBytes "\x7b\"response\":\"X\",\"done\":false\x7d\n"]) =
        .httpError 500
          ("Ollama API error: " ++ toString 503 ++ " - " ++
            String.mk (decodeUtf8Ignore (asciiBytes "model overloaded")))
    ∧ chat_sse_units (ollama_stream 503 (asciiBytes "model overloaded")
        [asciiBytes "\x7b\"response\":\"X\",\"done\":false\x7d\n"]) =
        ["data: [Backend error] " ++
          ("Ollama API error: " ++ toString 503 ++ " - " ++
            String.mk (decodeUtf8Ignore (asciiBytes "model overloaded"))) ++ "\n\n"] :=
  claim_C4_handshake_failure 503 (asciiBytes "model overloaded")
    [asciiBytes "\x7b\"response\":\"X\",\"done\":false\x7d\n"] (by decide)

/-- C5: a failure raised by the embedding step, the index search, or
the row lookup (an out-of-range identifier) is caught and
`retrieve_history` returns the empty string instead of propagating. -/
theorem claim_C5_retrieval_never_propagates {α : Type}
    (encode : String → Except PyErr α)
    (search : α → Nat → Except PyErr (List (List Int)))
    (corpus : List String) (query : String) :
    (∀ e, encode query = .error e →
        retrieve_history encode search corpus query = "")
    ∧ (∀ v e, encode query = .ok v → search v TOP_K = .error e →
        retrieve_history encode search corpus query = "")
    ∧ (∀ v mat i, encode query = .ok v → search v TOP_K = .ok mat →
        matFirst mat = .ok i → pyIndex corpus.length i = none →
        retrieve_history encode search corpus query = "") := by
  refine ⟨?_, ?_, ?_⟩
  · intro e he
    simp [retrieve_history, tryRetrieveHistory, he, Bind.bind, Except.bind]
  · intro v e hv he
    simp [retrieve_history, tryRetrieveHistory, hv, he, Bind.bind, Except.bind]
  · intro v mat i hv hmat hi hidx
    simp [retrieve_history, tryRetrieveHistory, ilocActionbody, hv, hmat, hi, hidx,
      Bind.bind, Except.bind]

/-- Witness for C5: an embedding failure, an index failure, and an
out-of-range identifier, each against a one-ticket corpus. -/
theorem claim_C5_retrieval_never_propagates_witness :
    retrieve_history (fun _ => (.error ⟨"embedding failure"⟩ : Except PyErr Unit))
      (fun _ _ => .ok [[0]]) ["ticket text"] "my query" = ""
    ∧ retrieve_history (fun _ => (.ok () : Except PyErr Unit))
        (fun _ _ => .error ⟨"index failure"⟩) ["ticket text"] "my query" = ""
    ∧ retrieve_history (fun _ => (.ok () : Except PyErr Unit))
        (fun _ _ => .ok [[5]]) ["ticket text"] "my query" = "" :=
  ⟨(claim_C5_retrieval_never_propagates _ _ _ _).1 ⟨"embedding failure"⟩ rfl,
   (claim_C5_retrieval_never_propagates _ _ _ _).2.1 () ⟨"index failure"⟩ rfl rfl,
   (claim_C5_retrieval_never_propagates _ _ _ _).2.2 () [[5]] 5 rfl rfl rfl rfl⟩

theorem pySliceTo_length_le (s : String) (n : Nat) : (pySliceTo s n).length ≤ n := by
  show (s.data.take n).length ≤ n
  rw [List.length_take]
  exact Nat.min_le_left _ _

/-- The function `search_helpdesk` performs the same lookup chain as the `try` block
of `retrieve_history`, then truncates the text when it is strictly
longer than the limit. -/
theorem search_helpdesk_text_eq {α : Type} (encode : String → Except PyErr α)
    (search : α → Nat → Except PyErr (List (List Int)))
    (corpus : List String) (query : String) :
    search_helpdesk_text encode search corpus query =
      (tryRetrieveHistory encode search corpus query).map
        (fun best_text =>
          if best_text.length > LLM_CONTEXT_LIMIT then
            pySliceTo best_text LLM_CONTEXT_LIMIT
          else best_text) := by
  unfold search_helpdesk_text tryRetrieveHistory
  rcases encode query with e | v
  · rfl
  · simp only [Bind.bind, Except.bind]
    rcases search v TOP_K with e | mat
    · rfl
    · simp only [Except.bind]
      rcases matFirst mat with e | i
      · rfl
      · simp only [Except.bind]
        rcases ilocActionbody corpus i with e | t
        · rfl
        · rfl

/-- C6: the retrieved history text is clipped to at most
`LLM_CONTEXT_LIMIT` characters, and a best-match text longer than the
limit is cut to exactly its first `LLM_CONTEXT_LIMIT` characters, with
no word-boundary awareness — in `retrieve_history` and in
`search_helpdesk` alike. -/
theorem claim_C6_context_limit {α : Type} (encode : String → Except PyErr α)
    (search : α → Nat → Except PyErr (List (List Int)))
    (corpus : List String) (query : String) :
    (retrieve_history encode search corpus query).length ≤ LLM_CONTEXT_LIMIT
    ∧ (∀ text, tryRetrieveHistory encode search corpus query = .ok text →
        LLM_CONTEXT_LIMIT < text.length →
        retrieve_history encode search corpus query = pySliceTo text LLM_CONTEXT_LIMIT)
    ∧ (∀ text, search_helpdesk_text encode search corpus query = .ok text →
        text.length ≤ LLM_CONTEXT_LIMIT)
    ∧ (∀ text, tryRetrieveHistory encode search corpus query = .ok text →
        LLM_CONTEXT_LIMIT < text.length →
        search_helpdesk_text encode search corpus query =
          .ok (pySliceTo text LLM_CONTEXT_LIMIT)) := by
  refine ⟨?_, ?_, ?_, ?_⟩
  · rcases ht : tryRetrieveHistory encode search corpus query with e | h
    · simp [retrieve_history, ht]
    · unfold retrieve_history
      rw [ht]
      dsimp only
      by_cases hh : h = ""
      · simp [hh]
      · rw [if_pos (by simp [bne_iff_ne, hh, LLM_CONTEXT_LIMIT])]
        exact pySliceTo_length_le _ _
  · intro text ht hlen
    unfold retrieve_history
    rw [ht]
    dsimp only
    have hne : text ≠ "" := by
      intro he
      rw [he] at hlen
      exact absurd hlen (by decide)
    rw [if_pos (by simp [bne_iff_ne, hne, LLM_CONTEXT_LIMIT])]
  · intro text ht
    rw [search_helpdesk_text_eq] at ht
    rcases h2 : tryRetrieveHistory encode search corpus query with e | best
    · rw [h2] at ht
      exact absurd ht (by simp [Except.map])
    · rw [h2] at ht
      simp only [Except.map] at ht
      injection ht with ht
      subst ht
      split
    
      · exact pySliceTo_length_le _ _
      · next hgt => exact Nat.le_of_not_lt hgt
  · intro text ht hlen
    rw [search_helpdesk_text_eq, ht]
    simp only [Except.map]
    rw [if_pos hlen]

/-- Witness for C6: a 2001-character best match is clipped to its first
2000 characters by both retrieval paths. -/
theorem claim_C6_context_limit_witness :
    LLM_CONTEXT_LIMIT < (String.mk (List.replicate 2001 'a')).length
    ∧ retrieve_history (fun _ => (.ok () : Except PyErr Unit)) (fun _ _ => .ok [[0]])
        [String.mk (List.replicate 2001 'a')] "q" =
        pySliceTo (String.mk (List.replicate 2001 'a')) LLM_CONTEXT_LIMIT
    ∧ search_helpdesk_text (fun _ => (.ok () : Except PyErr Unit)) (fun _ _ => .ok [[0]])
        [String.mk (List.replicate 2001 'a')] "q" =
        .ok (pySliceTo (String.mk (List.replicate 2001 'a')) LLM_CONTEXT_LIMIT) :=
  have hlen : LLM_CONTEXT_LIMIT < (String.mk (List.replicate 2001 'a')).length := by
    show LLM_CONTEXT_LIMIT < (List.replicate 2001 'a').length
    rw [List.length_replicate]
    decide
  ⟨hlen,
   (claim_C6_context_limit _ _ _ _).2.1 (String.mk (List.replicate 2001 'a')) rfl hlen,
   (claim_C6_context_limit _ _ _ _).2.2.2 (String.mk (List.replicate 2001 'a')) rfl hlen⟩

theorem String_data_append_eq (s t : String) : (s ++ t).data = s.data ++ t.data := rfl

set_option maxRecDepth 8000 in
/-- C7: `build_prompt` is a pure total function whose output contains
the history string and the user query verbatim as substrings, for all
inputs, the empty history included. -/
theorem claim_C7_prompt_contains_inputs (history user_msg : String) :
    history.data <:+: (build_prompt history user_msg).data
    ∧ user_msg.data <:+: (build_prompt history user_msg).data := by
  unfold build_prompt
  rw [String_data_append_eq, String_data_append_eq, String_data_append_eq,
    String_data_append_eq]
  constructor
  · exact ⟨"You are an expert IT helpdesk agent.\n\nThe following is a historical helpdesk ticket conversation:\n---\n".data,
      "\n---\n\nA user now asks: \"".data ++ user_msg.data ++
        "\"\n\nBased on the above, summarize the issue and resolution (if applicable), then write a helpful and friendly support reply for the user. If the history is not directly relevant, still provide a best-effort, step-by-step IT troubleshooting answer.\n".data,
      by simp only [List.append_assoc]⟩
  · exact ⟨"You are an expert IT helpdesk agent.\n\nThe following is a historical helpdesk ticket conversation:\n---\n".data ++
        history.data ++ "\n---\n\nA user now asks: \"".data,
      "\"\n\nBased on the above, summarize the issue and resolution (if applicable), then write a helpful and friendly support reply for the user. If the history is not directly relevant, still provide a best-effort, step-by-step IT troubleshooting answer.\n".data,
      by simp only [List.append_assoc]⟩

theorem joinTokens_map_str (strs : List String) :
    joinTokens (strs.map Json.str) = .ok (strs.foldr (· ++ ·) "") := by
  induction strs with
  | nil => rfl
  | cons s ss ih => simp [joinTokens, ih, List.foldr]

/-- C8: the `/query` adapter drains the relay's whole token sequence
and returns the concatenation of the tokens in arrival order; a
handshake failure is re-raised as is and a mid-stream failure becomes a
500 `LLM error`, never a partial reply. -/
theorem claim_C8_full_text_adapter (status : Nat) (body : List Nat)
    (chunks : List (List Nat)) :
    (∀ (strs : List String) (outcome : Outcome),
        ollama_stream status body chunks = .stream (strs.map Json.str) outcome →
        (∀ msg, outcome ≠ .errored msg) →
        post_query_generate (ollama_stream status body chunks) =
          .reply (strs.foldr (· ++ ·) ""))
    ∧ (∀ e, ollama_stream status body chunks = .handshakeError e →
        post_query_generate (ollama_stream status body chunks) =
          .httpError e.status_code e.detail)
    ∧ (∀ toks msg, ollama_stream status body chunks = .stream toks (.errored msg) →
        post_query_generate (ollama_stream status body chunks) =
          .httpError 500 ("LLM error: " ++ msg)) := by
  refine ⟨?_, ?_, ?_⟩
  · intro strs outcome h hne
    rw [h]
    cases outcome with
    | errored msg => exact absurd rfl (hne msg)
    | exhausted => simp [post_query_generate, joinTokens_map_str]
    | finished => simp [post_query_generate, joinTokens_map_str]
  · intro e h
    rw [h]
    rfl
  · intro toks msg h
    rw [h]
    rfl

/-- Witness for C8: a two-token stream is joined into one reply, and a
503 handshake is propagated as a request-level error. -/
theorem claim_C8_full_text_adapter_witness :
    post_query_generate (ollama_stream 200 []
      [asciiBytes "\x7b\"response\":\"He\",\"done\":false\x7d\n\x7b\"response\":\"llo\",\"done\":false\x7d\n\x7b\"done\":true\x7d\n"]) =
      .reply (["He", "llo"].foldr (· ++ ·) "")
    ∧ post_query_generate (ollama_stream 503 (asciiBytes "oom") []) =
        .httpError 500 ("Ollama API error: " ++ toString 503 ++ " - " ++
          String.mk (decodeUtf8Ignore (asciiBytes "oom"))) :=
  ⟨(claim_C8_full_text_adapter 200 [] _).1 ["He", "llo"] .finished rfl
      (fun _ h => Outcome.noConfusion h),
   (claim_C8_full_text_adapter 503 (asciiBytes "oom") []).2.1
      ⟨500, "Ollama API error: " ++ toString 503 ++ " - " ++
        String.mk (decodeUtf8Ignore (asciiBytes "oom"))⟩ rfl⟩

/-- C9: the SSE adapter forwards each relay token in arrival order as
one `data:` unit and, on clean completion, appends exactly one `[END]`
unit: the `"Hi"`, `"!"`, done scenario produces exactly those three
units in order. -/
theorem claim_C9_sse_order_and_end :
    chat_sse_units (ollama_stream 200 []
      [asciiBytes "\x7b\"response\":\"Hi\",\"done\":false\x7d\n\x7b\"response\":\"!\",\"done\":false\x7d\n\x7b\"done\":true\x7d\n"]) =
      ["data: Hi\n\n", "data: !\n\n", "data: [END]\n\n"]
    ∧ ∀ (toks : List Json),
        chat_sse_units (.stream toks .finished) =
          toks.map (fun t => "data: " ++ pyStr t ++ "\n\n") ++ ["data: [END]\n\n"] :=
  ⟨rfl, fun _ => rfl⟩

/-- Is a decoded JSON value a string? -/
def Json.isStr : Json → Bool
  | .str _ => true
  | _ => false

/-- A token emitted by the line-loop body is always Python-truthy: the
malformed-line fallback forwards only a non-empty stripped line, and a
parsed frame's `response` is yielded only under `if piece`. -/
theorem processLine_emit_truthy (line : String) (t : Json)
    (h : processLine line = .emit t) : pyTruthy t = true := by
  unfold processLine at h
  by_cases hline : line = ""
  · rw [if_pos hline] at h
    exact absurd h (by simp)
  · rw [if_neg hline] at h
    cases hj : json_loads line with
    | none =>
      rw [hj] at h
      injection h with h
      rw [← h]
      simp [pyTruthy, bne_iff_ne, hline]
    | some obj =>
      rw [hj] at h
      cases obj with
      | obj kvs =>
        dsimp only at h
        split at h
        · split at h
          · next hpiece =>
            injection h with h
            rw [← h]
            exact hpiece
          · exact absurd h (by simp)
        · exact absurd h (by simp)
      | null => exact absurd h (by simp)
      | bool b => exact absurd h (by simp)
      | num n => exact absurd h (by simp)
      | str s => exact absurd h (by simp)
      | arr xs => exact absurd h (by simp)

/-- Every token produced by one pass of the buffer loop is truthy. -/
theorem drainBuffer_tokens_truthy (fuel : Nat) :
    ∀ (buffer : List Nat) (t : Json),
      t ∈ (drainBuffer fuel buffer).1 → pyTruthy t = true := by
  induction fuel with
  | zero =>
    intro buffer t ht
    simp [drainBuffer] at ht
  | succ n ih =>
    intro buffer t ht
    rw [drainBuffer] at ht
    cases hf : buffer.findIdx? (fun b => b == 10) with
    | none =>
      rw [hf] at ht
      simp at ht
    | some nl =>
      rw [hf] at ht
      dsimp only at ht
      cases hp : processLine (lineText (buffer.take nl)) with
      | skip =>
        rw [hp] at ht
        exact ih _ t ht
      | emit t0 =>
        rw [hp] at ht
        rcases hd : drainBuffer n (buffer.drop (nl + 1)) with ⟨ts, b2, e⟩
        rw [hd] at ht
        dsimp only at ht
        rcases List.mem_cons.mp ht with rfl | hmem
        · exact processLine_emit_truthy _ _ hp
        · exact ih _ t (by rw [hd]; exact hmem)
      | stop =>
        rw [hp] at ht
        simp at ht
      | raised m =>
        rw [hp] at ht
        simp at ht

/-- Every token produced by the chunk loop is truthy. -/
theorem runChunks_tokens_truthy (chunks : List (List Nat)) :
    ∀ (buffer : List Nat) (t : Json),
      t ∈ (runChunks chunks buffer).1 → pyTruthy t = true := by
  induction chunks with
  | nil =>
    intro b t ht
    simp [runChunks] at ht
  | cons c cs ih =>
    intro b t ht
    rw [runChunks] at ht
    by_cases hc : c.isEmpty
    · rw [if_pos hc] at ht
      exact ih b t ht
    · rw [if_neg hc] at ht
      dsimp only at ht
      rcases hd : drainBuffer ((b ++ c).length + 1) (b ++ c) with ⟨ts, buf2, e⟩
      rw [hd] at ht
      cases e with
      | more =>
        dsimp only at ht
        rcases List.mem_append.mp ht with hmem | hmem
        · exact drainBuffer_tokens_truthy _ _ t (by rw [hd]; exact hmem)
        · exact ih buf2 t hmem
      | stopped =>
        dsimp only at ht
        exact drainBuffer_tokens_truthy _ _ t (by rw [hd]; exact ht)
      | raised m =>
        dsimp only at ht
        exact drainBuffer_tokens_truthy _ _ t (by rw [hd]; exact ht)

/-- C10 (amended): every token yielded by the relay is Python-truthy;
in particular every token that is a string is non-empty.  (The claim as
stated — every token IS a non-empty string — fails: a frame whose
`response` is a truthy non-string, e.g. the number 5, is yielded
as that value; see the counterexample.) -/
theorem claim_C10_amended_tokens_truthy (status : Nat) (body : List Nat)
    (chunks : List (List Nat)) (t : Json)
    (ht : t ∈ relayTokens (ollama_stream status body chunks)) :
    pyTruthy t = true ∧ ∀ s, t = .str s → s ≠ "" := by
  have htr : pyTruthy t = true := by
    unfold ollama_stream at ht
    by_cases hs : 400 ≤ status
    · rw [if_pos hs] at ht
      simp [relayTokens] at ht
    · rw [if_neg hs] at ht
      rcases hr : runChunks chunks [] with ⟨ts, o⟩
      rw [hr] at ht
      dsimp only [relayTokens] at ht
      exact runChunks_tokens_truthy chunks [] t (by rw [hr]; exact ht)
  refine ⟨htr, ?_⟩
  intro s hts
  rw [hts] at htr
  simpa [pyTruthy, bne_iff_ne] using htr

/-- Counterexample for C10 as stated: the frame
`b'{"response":5,"done":false}\n'` makes the relay yield the integer
`5` — a token that is not a (non-empty) string. -/
theorem claim_C10_counterexample_nonstring_token :
    relayTokens (ollama_stream 200 [] [asciiBytes "\x7b\"response\":5,\"done\":false\x7d\n"]) =
      [Json.num 5]
    ∧ Json.isStr (Json.num 5) = false := ⟨rfl, rfl⟩

/-- Witness for the amended C10 at a concrete stream. -/
theorem claim_C10_amended_tokens_truthy_witness :
    pyTruthy (Json.str "He") = true ∧ ∀ s, Json.str "He" = .str s → s ≠ "" :=
  claim_C10_amended_tokens_truthy 200 []
    [asciiBytes "\x7b\"response\":\"He\",\"done\":false\x7d\n"] (Json.str "He")
    (List.Mem.head _)
